import Mathlib

/-!
Shallow embedding of the WechatAudioPlayer core (src/unnamed/part_000 and
src/src/types/index.ts): player lifecycle state machine, configuration
normalization, environment detection, and the engine-event handlers.

JavaScript numbers are modelled by `JSNum` (NaN / ±Infinity / finite rational),
so that the JS comparison semantics of `setVolume`'s validation are captured
exactly.  The external SoundJS engine is modelled by an `Engine` record of
behaviour flags (availability, play result, which calls throw), since the
engine is an external collaborator.  Each operation returns the updated player
together with the list of `emit` calls it performed, and — for operations that
can throw to their caller — an `Except String Unit` outcome whose messages are
the source's error strings.
-/

namespace WechatAudioPlayer

/-- The seven player states (src/src/types/index.ts, `PlayerState`). -/
inductive PState
  | idle | loading | ready | playing | paused | stopped | error
deriving DecidableEq, Repr

/-- JavaScript number values, as far as `setVolume`'s validation can
distinguish them: NaN, the two infinities, and finite values (as rationals). -/
inductive JSNum
  | nan
  | posInf
  | negInf
  | finite (q : ℚ)
deriving DecidableEq, Repr

/-- A JavaScript value passed to `setVolume`: either a number (`typeof v ===
"number"`, which includes NaN and the infinities) or any non-number value. -/
inductive JSValue
  | num (n : JSNum)
  | nonNumber
deriving DecidableEq, Repr

/-- JS `v < 0`: false for NaN, true for -Infinity, rational comparison else. -/
def JSNum.ltZero : JSNum → Bool
  | .nan => false
  | .posInf => false
  | .negInf => true
  | .finite q => decide (q < 0)

/-- JS `v > 1`: false for NaN, true for +Infinity, rational comparison else. -/
def JSNum.gtOne : JSNum → Bool
  | .nan => false
  | .posInf => true
  | .negInf => false
  | .finite q => decide (1 < q)

/-- The validation gate of `setVolume` (part_000 line 431):
`typeof volume !== 'number' || volume < 0 || volume > 1`. -/
def volumeInvalid : JSValue → Bool
  | .nonNumber => true
  | .num n => n.ltZero || n.gtOne

/-- Spec-side predicate: `v` is a finite number lying in the interval [0,1]. -/
def finiteInUnitB : JSValue → Bool
  | .num (.finite q) => decide (0 ≤ q) && decide (q ≤ 1)
  | _ => false

/-- An event callback slot: either the default no-op filled in by the
constructor, or a user-supplied function (identified opaquely). -/
inductive Callback
  | noop
  | user (id : Nat)
deriving DecidableEq, Repr

/-- The ten lifecycle event names (src/src/types/index.ts, `PlayerEvents`). -/
inductive EventName
  | ready | play | pause | stop | ended | volumechange
  | timeupdate | progress | error | statechange
deriving DecidableEq, Repr

/-- An argument of an `emit` call. -/
inductive EventArg
  | stateArg (s : PState)
  | volumeArg (v : JSNum)
  | errorArg (msg : String)
deriving DecidableEq, Repr

/-- One `this.emit(name, ...args)` call, recorded as an observable event. -/
structure Emission where
  name : EventName
  args : List EventArg
deriving DecidableEq, Repr

/-- Resolved load options (`AudioLoadOptions` with all fields filled). -/
structure LoadOptions where
  id : String
  preload : Bool
  formats : List String
  timeout : Nat
deriving DecidableEq, Repr

/-- The fully resolved configuration `Required<WechatAudioConfig>` built by the
constructor (part_000 lines 84-111). -/
structure Config where
  src : String
  autoplay : Bool
  loop : Bool
  volume : JSNum
  muted : Bool
  loadOptions : LoadOptions
  enableJSSDK : Bool
  debug : Bool
  soundjsCDN : String
  onReady : Callback
  onPlay : Callback
  onPause : Callback
  onStop : Callback
  onEnded : Callback
  onError : Callback
  onVolumeChange : Callback
  onTimeUpdate : Callback
deriving DecidableEq, Repr

/-- Raw (caller-supplied) load options: every field optional. -/
structure RawLoadOptions where
  id : Option String := none
  preload : Option Bool := none
  formats : Option (List String) := none
  timeout : Option Nat := none
deriving DecidableEq, Repr

/-- Raw (caller-supplied) configuration `WechatAudioConfig`: every field but
`src` optional; an absent field is `none`. -/
structure RawConfig where
  src : Option String := none
  autoplay : Option Bool := none
  loop : Option Bool := none
  volume : Option JSNum := none
  muted : Option Bool := none
  loadOptions : Option RawLoadOptions := none
  enableJSSDK : Option Bool := none
  debug : Option Bool := none
  soundjsCDN : Option String := none
  onReady : Option Callback := none
  onPlay : Option Callback := none
  onPause : Option Callback := none
  onStop : Option Callback := none
  onEnded : Option Callback := none
  onError : Option Callback := none
  onVolumeChange : Option Callback := none
  onTimeUpdate : Option Callback := none
deriving DecidableEq, Repr

/-- The generated audio id (part_000 line 91):
`audio_${Date.now()}_${Math.random().toString(36).substr(2, 9)}`, with the
timestamp and random suffix passed in explicitly. -/
def genAudioId (now : Nat) (rand : String) : String :=
  "audio_" ++ toString now ++ "_" ++ rand

/-- The constructor's validation and default-merging (part_000 lines 77-111).
`Date.now()` and the random suffix are explicit parameters.  Throws (as the
constructor does) when `src` is absent or the empty string. -/
def normalizeConfig (raw : RawConfig) (now : Nat) (rand : String) :
    Except String Config :=
  match raw.src with
  | none => .error "Audio source (src) is required and must be a valid URL"
  | some src =>
    if src = "" then
      .error "Audio source (src) is required and must be a valid URL"
    else
      let rlo := raw.loadOptions.getD {}
      .ok {
        src := src
        autoplay := raw.autoplay.getD false
        loop := raw.loop.getD false
        volume := raw.volume.getD (.finite (4/5))
        muted := raw.muted.getD false
        loadOptions := {
          id := rlo.id.getD (genAudioId now rand)
          preload := rlo.preload.getD true
          formats := rlo.formats.getD ["mp3", "ogg", "wav"]
          timeout := rlo.timeout.getD 10000 }
        enableJSSDK := raw.enableJSSDK.getD false
        debug := raw.debug.getD false
        soundjsCDN :=
          raw.soundjsCDN.getD "https://code.createjs.com/1.0.0/soundjs.min.js"
        onReady := raw.onReady.getD .noop
        onPlay := raw.onPlay.getD .noop
        onPause := raw.onPause.getD .noop
        onStop := raw.onStop.getD .noop
        onEnded := raw.onEnded.getD .noop
        onError := raw.onError.getD .noop
        onVolumeChange := raw.onVolumeChange.getD .noop
        onTimeUpdate := raw.onTimeUpdate.getD .noop }

/-- The mutable instance fields of `WechatAudioPlayer` (part_000 lines 42-68).
The sound instance handle is opaque (a `Nat` id).  The listener registry maps
event names to a duplicate-free list of callbacks (`Set` semantics). -/
structure Player where
  config : Config
  state : PState
  soundInstance : Option Nat
  audioId : String
  destroyed : Bool
  listeners : List (EventName × List Callback)
  audioLoaded : Bool
deriving DecidableEq, Repr

/-- Behaviour of the external SoundJS engine for one call of a player method:
whether `window.createjs?.Sound` is present, what `Sound.play` returns
(`none` models a null instance), and which engine calls throw. -/
structure Engine where
  available : Bool
  playResult : Option Nat
  instStopThrows : Bool
  instPauseThrows : Bool
  instSetVolumeThrows : Bool
  instDestroyThrows : Bool
  removeSoundThrows : Bool
deriving DecidableEq, Repr

/-- `setState` (part_000 lines 664-671): update the state and emit
`statechange` carrying the new state, only when the state actually changes. -/
def setState (p : Player) (newState : PState) : Player × List Emission :=
  if p.state ≠ newState then
    ({ p with state := newState },
     [⟨.statechange, [.stateArg newState]⟩])
  else (p, [])

/-- `handleError` (part_000 lines 835-839): move to the error state and emit
`error` with the failure detail. -/
def handleError (p : Player) (msg : String) : Player × List Emission :=
  let r := setState p .error
  (r.1, r.2 ++ [⟨.error, [.errorArg msg]⟩])

/-- `play` (part_000 lines 329-374).  Early rejections (destroyed, not loaded,
engine unavailable) leave the player untouched.  Inside the try block: a
throwing `soundInstance.stop()` routes through `handleError` and rethrows; a
null result from `Sound.play` is assigned to the handle field before the null
check, so that branch nulls the handle, then routes through `handleError` and
rethrows.  On success the new handle is stored, the
state moves to `playing`, and `play` is emitted.  (`setupSoundInstanceEvents`
only attaches the completion listener, modelled by `handleComplete` below, and
swallows its own exceptions.) -/
def play (p : Player) (eng : Engine) :
    Player × List Emission × Except String Unit :=
  if p.destroyed then
    (p, [], .error "Player has been destroyed")
  else if !p.audioLoaded then
    (p, [], .error "Audio not loaded yet")
  else if !eng.available then
    (p, [], .error "SoundJS not available")
  else if p.soundInstance.isSome && eng.instStopThrows then
    let r := handleError p "Sound instance stop failed"
    (r.1, r.2, .error "Sound instance stop failed")
  else
    match eng.playResult with
    | none =>
      let p0 : Player := { p with soundInstance := none }
      let r := handleError p0 "Failed to create sound instance"
      (r.1, r.2, .error "Failed to create sound instance")
    | some h =>
      let p1 : Player := { p with soundInstance := some h }
      let r := setState p1 .playing
      (r.1, r.2 ++ [⟨.play, []⟩], .ok ())

/-- `pause` (part_000 lines 384-395): silent return when destroyed or no
active handle; a throwing `soundInstance.pause()` is caught and logged (so no
state change); otherwise move to `paused` and emit `pause`. -/
def pause (p : Player) (eng : Engine) : Player × List Emission :=
  if p.destroyed || p.soundInstance.isNone then (p, [])
  else if eng.instPauseThrows then (p, [])
  else
    let r := setState p .paused
    (r.1, r.2 ++ [⟨.pause, []⟩])

/-- `stop` (part_000 lines 405-416): same shape as `pause`, targeting the
`stopped` state and the `stop` event. -/
def stop (p : Player) (eng : Engine) : Player × List Emission :=
  if p.destroyed || p.soundInstance.isNone then (p, [])
  else if eng.instStopThrows then (p, [])
  else
    let r := setState p .stopped
    (r.1, r.2 ++ [⟨.stop, []⟩])

/-- `setVolume` (part_000 lines 430-447).  Validation first — there is no
destroyed check in this method.  On a valid number the configuration volume is
updated, the active handle (if present and not muted) receives the volume with
exceptions caught and logged, and `volumechange` is emitted unconditionally. -/
def setVolume (p : Player) (v : JSValue) :
    Player × List Emission × Except String Unit :=
  match v with
  | .nonNumber => (p, [], .error "Volume must be a number between 0 and 1")
  | .num n =>
    if n.ltZero || n.gtOne then
      (p, [], .error "Volume must be a number between 0 and 1")
    else
      let p1 : Player := { p with config := { p.config with volume := n } }
      (p1, [⟨.volumechange, [.volumeArg n]⟩], .ok ())

/-- `setMuted` (part_000 lines 469-482): updates the configuration, re-applies
the effective volume to the active handle (exceptions caught and logged), no
destroyed check, no emission. -/
def setMuted (p : Player) (m : Bool) : Player × List Emission :=
  ({ p with config := { p.config with muted := m } }, [])

/-- `destroy` (part_000 lines 618-653).  A second call returns at the
destroyed guard.  The teardown runs inside a try/catch whose handler only
logs, so a throwing step abandons the rest of the teardown: a throwing
`soundInstance.stop()`/`destroy()` leaves the player fields untouched; a
throwing `Sound.removeSound` happens after the handle was nulled but before
the listener registry is cleared.  Only a teardown that completes clears the
listeners, moves to `idle` and sets the destroyed flag. -/
def destroy (p : Player) (eng : Engine) : Player × List Emission :=
  if p.destroyed then (p, [])
  else if p.soundInstance.isSome && (eng.instStopThrows || eng.instDestroyThrows) then
    (p, [])
  else
    let p1 : Player := { p with soundInstance := none }
    if eng.available && p.audioLoaded && eng.removeSoundThrows then (p1, [])
    else
      let p2 : Player := { p1 with listeners := [] }
      let r := setState p2 .idle
      ({ r.1 with destroyed := true }, r.2)

/-- `handleSoundLoad` (part_000 lines 283-299): acts only when the engine
event's id equals this player's `audioId`; then marks the audio loaded, moves
to `ready`, emits `ready`, and — when autoplay is configured — calls `play`
with the rejection swallowed (`.catch` only logs). -/
def handleSoundLoad (p : Player) (eng : Engine) (eventId : String) :
    Player × List Emission :=
  if eventId = p.audioId then
    let p1 : Player := { p with audioLoaded := true }
    let r := setState p1 .ready
    let ems := r.2 ++ [⟨.ready, []⟩]
    if r.1.config.autoplay then
      let pr := play r.1 eng
      (pr.1, ems ++ pr.2.1)
    else (r.1, ems)
  else (p, [])

/-- `handleSoundError` (part_000 lines 306-310): acts only when the event id
equals this player's `audioId`; then routes through `handleError`. -/
def handleSoundError (p : Player) (eventId : String) (msg : String) :
    Player × List Emission :=
  if eventId = p.audioId then
    handleError p ("Audio load error: " ++ msg)
  else (p, [])

/-- The sound instance `complete` handler installed by
`setupSoundInstanceEvents` (part_000 lines 712-728): when loop is disabled at
completion time, move to `stopped` and emit `ended`; when loop is enabled, do
nothing (the engine repeats internally). -/
def handleComplete (p : Player) : Player × List Emission :=
  if !p.config.loop then
    let r := setState p .stopped
    (r.1, r.2 ++ [⟨.ended, []⟩])
  else (p, [])

/-- Boolean list-prefix test (structural, used by the substring test). -/
def prefB : List Char → List Char → Bool
  | [], _ => true
  | _ :: _, [] => false
  | a :: as, b :: bs => a == b && prefB as bs

/-- Boolean contiguous-sublist test: does `needle` occur in `hay`? -/
def subB (needle : List Char) : List Char → Bool
  | [] => needle.isEmpty
  | c :: cs => prefB needle (c :: cs) || subB needle cs

/-- Does the (already lowercased) haystack contain the token?  This renders a
case-insensitive regex test of a literal token on the lowercased user agent. -/
def hasTok (hay tok : String) : Bool :=
  subB tok.data hay.data

/-- Browser classification values (src/src/types/index.ts, `browserType`). -/
inductive BrowserType
  | weixin | safari | chrome | firefox | other
deriving DecidableEq, Repr

/-- The browser-classification chain of `detectEnvironment` (part_000 lines
742-746), on the lowercased user agent, with the source's literal regex
alternations. -/
def detectBrowserType (ua : String) : BrowserType :=
  let hay := ua.toLower
  if hasTok hay "micromessenger" then .weixin
  else if hasTok hay "safari" &&
      !(hasTok hay "chrome" || hasTok hay "chromium" || hasTok hay "edge") then
    .safari
  else if hasTok hay "chrome" || hasTok hay "chromium" then .chrome
  else if hasTok hay "firefox" then .firefox
  else .other

/-- The environment snapshot fields computed by `detectEnvironment` (part_000
lines 735-765) that are derivable from the user agent and protocol flag alone;
the version-string extraction is a regex capture not needed by any claim and
is omitted here. -/
structure EnvInfo where
  isWeixin : Bool
  isIOS : Bool
  isAndroid : Bool
  isHTTPS : Bool
  supportsAutoplay : Bool
  browserType : BrowserType
deriving DecidableEq, Repr

/-- `detectEnvironment` (part_000 lines 735-765), minus the version capture. -/
def detectEnvironment (ua : String) (httpsFlag : Bool) : EnvInfo :=
  let hay := ua.toLower
  let weixinFlag := hasTok hay "micromessenger"
  { isWeixin := weixinFlag
    isIOS := hasTok hay "iphone" || hasTok hay "ipad" || hasTok hay "ipod"
    isAndroid := hasTok hay "android"
    isHTTPS := httpsFlag
    supportsAutoplay := weixinFlag
    browserType := detectBrowserType ua }

/-- Modelled from the spec: one classification rule — a guard (evaluated on
the user agent, case-insensitively) paired with the resulting class. -/
def specRuleGuards (ua : String) : List (Bool × BrowserType) :=
  let hay := ua.toLower
  [ (hasTok hay "micromessenger", .weixin),
    (hasTok hay "safari" &&
       !(hasTok hay "chrome" || hasTok hay "chromium" || hasTok hay "edge"),
     .safari),
    (hasTok hay "chrome" || hasTok hay "chromium", .chrome),
    (hasTok hay "firefox", .firefox) ]

/-- Modelled from the spec: evaluate rules in order, first match wins,
falling through to `other`. -/
def firstMatch : List (Bool × BrowserType) → BrowserType
  | [] => .other
  | (true, b) :: _ => b
  | (false, _) :: rest => firstMatch rest

/-- Modelled from the spec: "Browser classification priority, evaluated in
order, first match wins: platform-app → safari (Safari token present AND none
of chrome/chromium/edge tokens present) → chromium-family (chrome or chromium
token) → firefox (firefox token) → other", matching case-insensitively. -/
def browserClassSpec (ua : String) : BrowserType :=
  firstMatch (specRuleGuards ua)

/-! Concrete fixtures (players and engine behaviours) used by the witness and
counterexample theorems below. -/

/-- A resolved configuration as produced for `{src: "a.mp3"}` (0.8 = 4/5). -/
def sampleConfig : Config :=
  { src := "a.mp3", autoplay := false, loop := false,
    volume := JSNum.finite (4/5), muted := false,
    loadOptions := { id := "audio_1_x", preload := true,
                     formats := ["mp3", "ogg", "wav"], timeout := 10000 },
    enableJSSDK := false, debug := false,
    soundjsCDN := "https://code.createjs.com/1.0.0/soundjs.min.js",
    onReady := .noop, onPlay := .noop, onPause := .noop, onStop := .noop,
    onEnded := .noop, onError := .noop, onVolumeChange := .noop,
    onTimeUpdate := .noop }

/-- A live player in the `playing` state with an active handle. -/
def samplePlaying : Player :=
  { config := sampleConfig, state := .playing, soundInstance := some 0,
    audioId := "audio_1_x", destroyed := false,
    listeners := [(.play, [.user 0])], audioLoaded := true }

/-- A loaded player in the `ready` state with no active handle. -/
def sampleReady : Player :=
  { samplePlaying with state := .ready, soundInstance := none }

/-- A player still in the `loading` state (load not completed). -/
def sampleLoading : Player :=
  { samplePlaying with
    state := .loading, audioLoaded := false, soundInstance := none }

/-- A live player currently in the `idle` state. -/
def sampleIdle : Player := { samplePlaying with state := .idle }

/-- A playing player whose configuration has loop enabled. -/
def loopPlaying : Player :=
  { samplePlaying with config := { sampleConfig with loop := true } }

/-- A player after a completed `destroy()`: flag set, handle nulled, registry
cleared, state `idle`. -/
def destroyedSample : Player :=
  { samplePlaying with
    state := .idle, soundInstance := none, listeners := [],
    destroyed := true }

/-- An available engine that plays successfully and never throws. -/
def benignEngine : Engine :=
  { available := true, playResult := some 1, instStopThrows := false,
    instPauseThrows := false, instSetVolumeThrows := false,
    instDestroyThrows := false, removeSoundThrows := false }

/-- Like `benignEngine`, but the sound handle's `stop()` throws. -/
def engineStopThrows : Engine := { benignEngine with instStopThrows := true }

/-! Claim theorems. -/

/-- Claim C1, counterexample: NaN is not a finite number in [0,1], yet
`setVolume` accepts it without throwing (both JS comparisons `NaN < 0` and
`NaN > 1` are false and `typeof NaN === 'number'`), and even stores NaN as the
configured volume — refuting "throws iff not a finite number in [0,1]". -/
theorem setVolume_nan_counterexample :
    finiteInUnitB (JSValue.num JSNum.nan) = false ∧
    (setVolume samplePlaying (JSValue.num JSNum.nan)).2.2 = Except.ok () ∧
    (setVolume samplePlaying (JSValue.num JSNum.nan)).1.config.volume
      = JSNum.nan := by
  exact ⟨rfl, rfl, rfl⟩

/-- Claim C1 (amended): `setVolume(v)` throws the invalid-volume error iff `v`
is neither NaN nor a finite number in [0,1] — so it throws for +Infinity,
-Infinity, negative values, values above 1 and non-number inputs, but silently
accepts NaN; and the method performs no destroyed-state check at all, so both
the throw/no-throw outcome and the emissions are identical for every destroyed
flag and every player state. -/
theorem setVolume_validation (p : Player) (v : JSValue) (d : Bool)
    (s : PState) :
    ((setVolume p v).2.2
        = Except.error "Volume must be a number between 0 and 1"
      ↔ ¬(v = JSValue.num JSNum.nan ∨ finiteInUnitB v = true)) ∧
    (setVolume { p with destroyed := d, state := s } v).2.2
      = (setVolume p v).2.2 ∧
    (setVolume { p with destroyed := d, state := s } v).2.1
      = (setVolume p v).2.1 := by
  refine ⟨?_, ?_, ?_⟩
  · cases v with
    | nonNumber => simp [setVolume, finiteInUnitB]
    | num n =>
      cases n with
      | nan => simp [setVolume, JSNum.ltZero, JSNum.gtOne, finiteInUnitB]
      | posInf => simp [setVolume, JSNum.ltZero, JSNum.gtOne, finiteInUnitB]
      | negInf => simp [setVolume, JSNum.ltZero, JSNum.gtOne, finiteInUnitB]
      | finite q =>
        simp only [setVolume, JSNum.ltZero, JSNum.gtOne, finiteInUnitB]
        rcases lt_or_le q 0 with h0 | h0
        · simp [h0, not_le.mpr h0]
        · rcases le_or_lt q 1 with h1 | h1
          · simp [not_lt.mpr h0, not_lt.mpr h1, h0, h1]
          · simp [h1, not_le.mpr h1, not_lt.mpr h0]
  · cases v with
    | nonNumber => rfl
    | num n => cases hc : (n.ltZero || n.gtOne) <;> simp [setVolume, hc]
  · cases v with
    | nonNumber => rfl
    | num n => cases hc : (n.ltZero || n.gtOne) <;> simp [setVolume, hc]

/-- Claim C2, counterexample: on a destroyed player, `setVolume` with the
valid argument 1/2 is not silently ignored — it mutates the configured volume
(from 4/5 to 1/2) and still performs the `volumechange` emission, because the
method has no destroyed check. -/
theorem postDestroy_setVolume_counterexample :
    destroyedSample.destroyed = true ∧
    destroyedSample.config.volume = JSNum.finite (4/5) ∧
    (setVolume destroyedSample
        (JSValue.num (JSNum.finite (1/2)))).1.config.volume
      = JSNum.finite (1/2) ∧
    (setVolume destroyedSample (JSValue.num (JSNum.finite (1/2)))).2.1
      = [⟨EventName.volumechange, [EventArg.volumeArg (JSNum.finite (1/2))]⟩]
      := by
  refine ⟨rfl, rfl, ?_, ?_⟩ <;> norm_num [setVolume, JSNum.ltZero, JSNum.gtOne]

/-- Claim C2 (amended): after `destroy()` has completed, `play()` rejects with
the player-destroyed error and `pause()`/`stop()` are silently ignored; but
`setVolume` and `setMuted` perform no destroyed check: a valid `setVolume`
still mutates the configured volume and emits `volumechange`, and `setMuted`
still mutates the configured mute flag (with no emission). -/
theorem postDestroy_behavior (p : Player) (eng : Engine) (n : JSNum) (m : Bool)
    (hd : p.destroyed = true)
    (hv : (JSNum.ltZero n || JSNum.gtOne n) = false) :
    play p eng = (p, [], Except.error "Player has been destroyed") ∧
    pause p eng = (p, []) ∧
    stop p eng = (p, []) ∧
    setVolume p (JSValue.num n)
      = ({ p with config := { p.config with volume := n } },
         [⟨EventName.volumechange, [EventArg.volumeArg n]⟩], Except.ok ()) ∧
    setMuted p m = ({ p with config := { p.config with muted := m } }, []) := by
  refine ⟨?_, ?_, ?_, ?_, rfl⟩
  · simp [play, hd]
  · simp [pause, hd]
  · simp [stop, hd]
  · simp [setVolume, hv]

/-- Claim C2 witness: the amended claim evaluated on a concrete destroyed
player, the benign engine, volume 1/2 and mute flag true. -/
theorem postDestroy_behavior_witness :
    play destroyedSample benignEngine
      = (destroyedSample, [], Except.error "Player has been destroyed") ∧
    pause destroyedSample benignEngine = (destroyedSample, []) ∧
    stop destroyedSample benignEngine = (destroyedSample, []) ∧
    setVolume destroyedSample (JSValue.num (JSNum.finite (1/2)))
      = ({ destroyedSample with
           config := { destroyedSample.config with
                       volume := JSNum.finite (1/2) } },
         [⟨EventName.volumechange, [EventArg.volumeArg (JSNum.finite (1/2))]⟩],
         Except.ok ()) ∧
    setMuted destroyedSample true
      = ({ destroyedSample with
           config := { destroyedSample.config with muted := true } }, []) :=
  postDestroy_behavior destroyedSample benignEngine (JSNum.finite (1/2)) true
    rfl (by norm_num [JSNum.ltZero, JSNum.gtOne])

/-- Claim C3, counterexample: when the first `destroy()`'s teardown raises an
internally caught exception (the handle's `stop()` throws), the destroyed flag
is never set — so a second `destroy()` re-runs the whole teardown and emits a
`statechange`, making two calls observably different from one (which changed
nothing and emitted nothing). -/
theorem destroy_counterexample :
    destroy samplePlaying engineStopThrows = (samplePlaying, []) ∧
    samplePlaying.destroyed = false ∧
    destroy (destroy samplePlaying engineStopThrows).1 benignEngine
      = ({ samplePlaying with
           soundInstance := none, listeners := [], state := PState.idle,
           destroyed := true },
         [⟨EventName.statechange, [EventArg.stateArg PState.idle]⟩]) := by
  exact ⟨rfl, rfl, rfl⟩

/-- Claim C3 (amended): `destroy()` never throws (teardown exceptions are
caught). When the first `destroy()`'s teardown raises no engine exception, it
marks the player destroyed and a second `destroy()` — under any engine
behaviour — is a silent no-op: same player, no emission, in particular no
duplicate `statechange`. (When teardown does throw, the destroyed flag stays
unset and a later `destroy()` re-runs teardown, as the counterexample shows.)
-/
theorem destroy_idempotent (p : Player) (e1 e2 : Engine)
    (h1 : (p.soundInstance.isSome
            && (e1.instStopThrows || e1.instDestroyThrows)) = false)
    (h2 : (e1.available && p.audioLoaded && e1.removeSoundThrows) = false) :
    (destroy p e1).1.destroyed = true ∧
    destroy (destroy p e1).1 e2 = ((destroy p e1).1, []) := by
  by_cases hd : p.destroyed = true
  · constructor
    · simp [destroy, hd]
    · simp [destroy, hd]
  · have hd' : p.destroyed = false := by
      cases hb : p.destroyed
      · rfl
      · exact absurd hb hd
    constructor
    · simp [destroy, hd', h1, h2]
    · simp [destroy, hd', h1, h2]

/-- Claim C3 witness: the amended claim evaluated on a concrete playing
player whose first teardown raises nothing. -/
theorem destroy_idempotent_witness :
    (destroy samplePlaying benignEngine).1.destroyed = true ∧
    destroy (destroy samplePlaying benignEngine).1 engineStopThrows
      = ((destroy samplePlaying benignEngine).1, []) :=
  destroy_idempotent samplePlaying benignEngine engineStopThrows rfl rfl

/-- Claim C4, counterexample: the `statechange` notification carries only the
new state — two transitions with different old states into the same new state
produce identical notifications, so the emitted notification cannot be
carrying the old state as the claim requires. -/
theorem setState_counterexample :
    sampleIdle.state ≠ sampleLoading.state ∧
    (setState sampleIdle PState.ready).2
      = [⟨EventName.statechange, [EventArg.stateArg PState.ready]⟩] ∧
    (setState sampleLoading PState.ready).2
      = (setState sampleIdle PState.ready).2 := by
  refine ⟨by decide, rfl, rfl⟩

/-- Claim C4 (amended): setting the state to the value it already has emits
nothing and changes nothing, and every actual change emits exactly one
`statechange` — carrying the new state only. -/
theorem setState_statechange_iff (p : Player) (s : PState) :
    ((setState p s).2
      = if p.state = s then []
        else [⟨EventName.statechange, [EventArg.stateArg s]⟩]) ∧
    (setState p s).1.state = s ∧
    ((setState p s).2.countP (fun em => em.name == EventName.statechange)
      = if p.state = s then 0 else 1) := by
  unfold setState
  by_cases h : p.state = s
  · subst h; simp
  · simp [h, List.countP_cons, List.countP_nil]

/-- Claim C5, counterexample: a successful `play()` issued while the player is
already in the `playing` state emits the `play` event with no preceding
`statechange` (the internal `setState('playing')` is a no-op there), refuting
"statechange strictly before play on every successful play()". -/
theorem play_order_counterexample :
    samplePlaying.state = PState.playing ∧
    (play samplePlaying benignEngine).2.2 = Except.ok () ∧
    (play samplePlaying benignEngine).2.1 = [⟨EventName.play, []⟩] := by
  exact ⟨rfl, rfl, rfl⟩

/-- Claim C5 (amended): every successful `play()` from a state other than
`playing` emits the `statechange` to `playing` strictly before the `play`
event; a successful `play()` issued while already `playing` emits only `play`.
-/
theorem play_emission_order (p : Player) (eng : Engine)
    (hok : (play p eng).2.2 = Except.ok ()) :
    (play p eng).2.1 =
      (if p.state = PState.playing then []
       else [⟨EventName.statechange, [EventArg.stateArg PState.playing]⟩])
      ++ [⟨EventName.play, []⟩] := by
  by_cases h1 : p.destroyed = true
  · simp [play, h1] at hok
  · have h1' : p.destroyed = false := by
      cases hb : p.destroyed
      · rfl
      · exact absurd hb h1
    by_cases h2 : p.audioLoaded = true
    · by_cases h3 : eng.available = true
      · by_cases h4 : (p.soundInstance.isSome && eng.instStopThrows) = true
        · simp [play, h1', h2, h3, h4, handleError, setState] at hok
        · have h4' : (p.soundInstance.isSome && eng.instStopThrows) = false :=
            by
            cases hb : (p.soundInstance.isSome && eng.instStopThrows)
            · rfl
            · exact absurd hb h4
          cases hpr : eng.playResult with
          | none =>
            simp [play, h1', h2, h3, h4', hpr, handleError, setState] at hok
          | some hndl =>
            by_cases h5 : p.state = PState.playing
            · simp [play, h1', h2, h3, h4', hpr, setState, h5]
            · simp [play, h1', h2, h3, h4', hpr, setState, h5]
      · have h3' : eng.available = false := by
          cases hb : eng.available
          · rfl
          · exact absurd hb h3
        simp [play, h1', h2, h3'] at hok
    · have h2' : p.audioLoaded = false := by
        cases hb : p.audioLoaded
        · rfl
        · exact absurd hb h2
      simp [play, h1', h2'] at hok

/-- Claim C5 witness: the amended claim evaluated on a concrete `ready`-state
player and the benign engine (the success hypothesis holds by computation). -/
theorem play_emission_order_witness :
    (play sampleReady benignEngine).2.1 =
      (if sampleReady.state = PState.playing then []
       else [⟨EventName.statechange, [EventArg.stateArg PState.playing]⟩])
      ++ [⟨EventName.play, []⟩] :=
  play_emission_order sampleReady benignEngine rfl

/-- Claim C6: when the engine reports natural completion, loop enabled at that
moment means no `ended` emission and no state change at all, while loop
disabled means the player ends in the `stopped` state having emitted exactly
one `ended`. -/
theorem complete_loop_behavior (p : Player) :
    ((handleComplete p).2.countP (fun em => em.name == EventName.ended)
      = if p.config.loop then 0 else 1) ∧
    (handleComplete p).1.state
      = (if p.config.loop then p.state else PState.stopped) ∧
    (p.config.loop = true → handleComplete p = (p, [])) := by
  unfold handleComplete setState
  by_cases h : p.config.loop = true
  · simp [h]
  · have h' : p.config.loop = false := by
      cases hb : p.config.loop
      · rfl
      · exact absurd hb h
    by_cases h2 : p.state = PState.stopped
    · simp [h', h2, List.countP_cons, List.countP_nil]
    · simp [h', h2, List.countP_cons, List.countP_nil]

/-- Claim C6 witness: the loop-enabled player is left entirely unchanged by a
completion signal, with zero `ended` emissions. -/
theorem complete_loop_behavior_witness :
    ((handleComplete loopPlaying).2.countP
        (fun em => em.name == EventName.ended) = 0) ∧
    handleComplete loopPlaying = (loopPlaying, []) := by
  have h := complete_loop_behavior loopPlaying
  exact ⟨h.1, h.2.2 rfl⟩

/-- Claim C7: `play()` on a non-destroyed player whose load has not completed
rejects with the audio-not-loaded error and returns the player unchanged (same
state — in particular still `loading` when it was —, same handle, same
configuration) with no emission. -/
theorem play_notLoaded (p : Player) (eng : Engine)
    (hd : p.destroyed = false) (hl : p.audioLoaded = false) :
    play p eng = (p, [], Except.error "Audio not loaded yet") := by
  simp [play, hd, hl]

/-- Claim C7 witness: evaluated on the concrete `loading`-state player. -/
theorem play_notLoaded_witness :
    play sampleLoading benignEngine
      = (sampleLoading, [], Except.error "Audio not loaded yet") :=
  play_notLoaded sampleLoading benignEngine rfl rfl

/-- Claim C8: for every user-agent string, the code's browser classification
equals the spec's rule chain evaluated in order with first match winning —
platform-app, then safari (safari token present and none of
chrome/chromium/edge), then chromium-family (chrome or chromium), then
firefox, else other — matching case-insensitively (both sides match lowercase
tokens against the lowercased user agent). -/
theorem detect_browser_matches_spec (ua : String) :
    detectBrowserType ua = browserClassSpec ua := by
  unfold detectBrowserType browserClassSpec specRuleGuards
  cases h1 : hasTok ua.toLower "micromessenger" <;>
  cases h2 : hasTok ua.toLower "safari" <;>
  cases h3 : hasTok ua.toLower "chrome" <;>
  cases h4 : hasTok ua.toLower "chromium" <;>
  cases h5 : hasTok ua.toLower "edge" <;>
  cases h6 : hasTok ua.toLower "firefox" <;>
    simp [h1, h2, h3, h4, h5, h6, firstMatch]

/-- Claim C9: for every non-empty source locator and every timestamp and
random suffix, normalizing the raw configuration containing only that locator
succeeds with volume 0.8 (= 4/5), loop, muted, autoplay and debug all false, a
10000 ms load timeout, a non-empty generated identifier, and all eight
event-callback slots filled with the no-op. -/
theorem normalize_defaults (src : String) (now : Nat) (rand : String)
    (hsrc : src ≠ "") :
    ∃ cfg : Config,
      normalizeConfig { src := some src } now rand = Except.ok cfg ∧
      cfg.src = src ∧
      cfg.volume = JSNum.finite (4/5) ∧ cfg.loop = false ∧
      cfg.muted = false ∧ cfg.autoplay = false ∧ cfg.debug = false ∧
      cfg.loadOptions.timeout = 10000 ∧ cfg.loadOptions.id ≠ "" ∧
      cfg.onReady = Callback.noop ∧ cfg.onPlay = Callback.noop ∧
      cfg.onPause = Callback.noop ∧ cfg.onStop = Callback.noop ∧
      cfg.onEnded = Callback.noop ∧ cfg.onError = Callback.noop ∧
      cfg.onVolumeChange = Callback.noop ∧
      cfg.onTimeUpdate = Callback.noop := by
  have hok : normalizeConfig { src := some src } now rand
      = Except.ok
        { src := src, autoplay := false, loop := false,
          volume := JSNum.finite (4/5), muted := false,
          loadOptions := { id := genAudioId now rand, preload := true,
                           formats := ["mp3", "ogg", "wav"],
                           timeout := 10000 },
          enableJSSDK := false, debug := false,
          soundjsCDN := "https://code.createjs.com/1.0.0/soundjs.min.js",
          onReady := .noop, onPlay := .noop, onPause := .noop,
          onStop := .noop, onEnded := .noop, onError := .noop,
          onVolumeChange := .noop, onTimeUpdate := .noop } := by
    simp only [normalizeConfig]
    rw [if_neg hsrc]
    rfl
  refine ⟨_, hok, rfl, rfl, rfl, rfl, rfl, rfl, rfl, ?_, rfl, rfl, rfl, rfl,
    rfl, rfl, rfl, rfl⟩
  intro hempty
  have hlen := congrArg String.length hempty
  simp only [genAudioId] at hlen
  rw [String.length_append, String.length_append, String.length_append]
    at hlen
  have e1 : ("audio_" : String).length = 6 := rfl
  have e2 : ("_" : String).length = 1 := rfl
  have e3 : ("" : String).length = 0 := rfl
  omega

/-- Claim C9 witness: the theorem evaluated at the concrete locator "a.mp3",
timestamp 1 and random suffix "x" (the non-emptiness hypothesis holds by
computation). -/
theorem normalize_defaults_witness :
    ∃ cfg : Config,
      normalizeConfig { src := some "a.mp3" } 1 "x" = Except.ok cfg ∧
      cfg.src = "a.mp3" ∧
      cfg.volume = JSNum.finite (4/5) ∧ cfg.loop = false ∧
      cfg.muted = false ∧ cfg.autoplay = false ∧ cfg.debug = false ∧
      cfg.loadOptions.timeout = 10000 ∧ cfg.loadOptions.id ≠ "" ∧
      cfg.onReady = Callback.noop ∧ cfg.onPlay = Callback.noop ∧
      cfg.onPause = Callback.noop ∧ cfg.onStop = Callback.noop ∧
      cfg.onEnded = Callback.noop ∧ cfg.onError = Callback.noop ∧
      cfg.onVolumeChange = Callback.noop ∧
      cfg.onTimeUpdate = Callback.noop :=
  normalize_defaults "a.mp3" 1 "x" (by decide)

/-- Claim C10: an engine `fileload` or `fileerror` event whose id differs from
this player's identifier leaves the player entirely unchanged — no loaded-flag
update, no state transition, no emission and no autoplay attempt. -/
theorem handlers_ignore_foreign_ids (p : Player) (eng : Engine)
    (evId msg : String) (h : evId ≠ p.audioId) :
    handleSoundLoad p eng evId = (p, []) ∧
    handleSoundError p evId msg = (p, []) := by
  constructor
  · simp [handleSoundLoad, h]
  · simp [handleSoundError, h]

/-- Claim C10 witness: evaluated on the concrete playing player and a foreign
event id. -/
theorem handlers_ignore_foreign_ids_witness :
    handleSoundLoad samplePlaying benignEngine "audio_other"
      = (samplePlaying, []) ∧
    handleSoundError samplePlaying "audio_other" "boom"
      = (samplePlaying, []) :=
  handlers_ignore_foreign_ids samplePlaying benignEngine "audio_other" "boom"
    (by decide)

end WechatAudioPlayer
